import Mathlib

/-!
Verification of the auditor daemon (lib/rucio/daemons/auditor/__init__.py).

The source is Python 2; strings are modelled as lists of characters
(`Str := List Char`), the filesystem as a partial map from paths to file
contents, and each effectful collaborator (dump download, snapshot download,
diff iteration, `os.remove`) as an explicit input describing whether it
succeeds or raises.  All definitions are translated from the source file.
-/

/-- Python `str` values are modelled as lists of characters. -/
abbrev Str := List Char

/-- The local filesystem: a partial map from paths to file contents. -/
abbrev FS := Str → Option Str

/-- Write (create or overwrite) the file at path `p` with content `v`. -/
def updateFS (fs : FS) (p : Str) (v : Str) : FS :=
  fun q => if q = p then some v else fs q

/-- `os.remove`: delete the file at path `p`. -/
def removeFS (fs : FS) (p : Str) : FS :=
  fun q => if q = p then none else fs q

/-- Python `s.split(sep)` for a one-character separator: splits on every
occurrence, so `""` yields `[""]` and a leading separator yields a leading
empty segment. -/
def pySplit (sep : Char) : Str → List Str
  | [] => [[]]
  | c :: cs =>
    if c = sep then [] :: pySplit sep cs
    else
      match pySplit sep cs with
      | [] => [[c]]
      | t :: ts => (c :: t) :: ts

/-- Python `s.split(sep, 1)` restricted to the successful two-element case:
`some (before, after)` splits at the first occurrence of `sep`; `none` means
the separator is absent, in which case `label, path = s.split(sep, 1)` in the
source raises a `ValueError` (tuple unpacking of a one-element list). -/
def pySplitOnce (sep : Char) : Str → Option (Str × Str)
  | [] => none
  | c :: cs =>
    if c = sep then some ([], cs)
    else (pySplitOnce sep cs).map (fun p => (c :: p.1, p.2))

/-- The characters stripped by Python `str.rstrip()`. -/
def pyWhitespace : List Char :=
  [' ', '\t', '\n', Char.ofNat 13, Char.ofNat 11, Char.ofNat 12]

/-- Python `s.rstrip()`: drop trailing whitespace. -/
def pyRstrip (s : Str) : Str :=
  (s.reverse.dropWhile (fun c => pyWhitespace.contains c)).reverse

/-- `guess_replica_info(path)` (source lines 71-86): split `path` on `/`;
one segment gives `(None, path)`; more than two segments with first segment
`group` or `user` gives scope `'.'` dot-joining `items[0:2]` with name `items[-1]`; otherwise
`(items[0], items[-1])`. -/
def guess_replica_info (path : Str) : Option Str × Str :=
  let items := pySplit '/' path
  if items.length = 1 then
    (none, path)
  else if 2 < items.length ∧ (items.headD [] = ("group").toList ∨ items.headD [] = ("user").toList) then
    (some (List.intercalate ['.'] (items.take 2)), items.getLastD [])
  else
    (some (items.headD []), items.getLastD [])

/-- One entry appended to `dark_replicas` in `process_output`:
`{'path': path, 'scope': scope, 'name': name}`. -/
structure DarkReplica where
  path : Str
  scope : Option Str
  name : Str
deriving DecidableEq, Repr

/-- The parsing loop of `process_output` (source lines 137-149): for each
line, rstrip it and split once on the first comma; a missing comma raises
(`none`); label `DARK` records a replica via `guess_replica_info`; label
`LOST` is ignored; any other label raises `ValueError` (`none`). -/
def parseResultLines : List Str → Option (List DarkReplica)
  | [] => some []
  | line :: rest =>
    match pySplitOnce ',' (pyRstrip line) with
    | none => none
    | some (label, path) =>
      if label = ("DARK").toList then
        (parseResultLines rest).map
          (fun ds => ⟨path, (guess_replica_info path).1, (guess_replica_info path).2⟩ :: ds)
      else if label = ("LOST").toList then
        parseResultLines rest
      else none

/-- How an invocation of `process_output` terminates: normally, with the
re-raised parse exception of the guarded block, or with the sanity-guard
`AssertionError`. -/
inductive POOutcome
  | ok
  | parseError
  | sanityError
deriving DecidableEq, Repr

/-- Observable effects of one `process_output` run: its outcome, the batches
passed to `add_quarantined_replicas` (at most one), whether the guarded parse
block logged at critical severity, and whether `bz2_compress_file` ran. -/
structure PORun where
  outcome : POOutcome
  quarantined : List (List DarkReplica)
  criticalLogged : Bool
  compressed : Bool
deriving DecidableEq, Repr

/-- `process_output(output, sanity_check, compress)` (source lines 117-172),
with the file's lines, the RSE usage file count (`get_rse_usage(...)['files']`)
and the configured threshold passed explicitly.  A parse failure is logged at
critical severity and re-raised before anything is submitted; the sanity guard
raises `AssertionError` before `add_quarantined_replicas`; on success the one
batch is submitted and the file is compressed when `compress` is set. -/
def process_output (lines : List Str) (sanity_check compress : Bool)
    (usage_files : Nat) (threshold : ℚ) : PORun :=
  match parseResultLines lines with
  | none => ⟨POOutcome.parseError, [], true, false⟩
  | some dark_replicas =>
    if sanity_check = true ∧ (dark_replicas.length : ℚ) > threshold * (usage_files : ℚ) then
      ⟨POOutcome.sanityError, [], false, false⟩
    else
      ⟨POOutcome.ok, [dark_replicas], false, compress⟩

/-- How one pass of the worker loop body in `check` (source lines 196-229)
ends: `crashed` when an uncaught exception escapes it (ending the loop),
`normal push` when it reaches the retry decision, `push` being the item put
on the retry channel (if any). -/
inductive IterOutcome
  | crashed
  | normal (push : Option (Str × Nat))
deriving DecidableEq, Repr

/-- The retry decision at the end of the loop body (source lines 228-229):
`if not success and attemps > 0: retry.put((rse, attemps - 1))`. -/
def retryDecision (success : Bool) (rse : Str) (attemps : Nat) : Option (Str × Nat) :=
  if success = false ∧ 0 < attemps then some (rse, attemps - 1) else none

/-- Whether the cache-cleanup block (source lines 221-226) raises: with
`keep_dumps` unset, `os.remove` is called on every globbed artifact with no
surrounding exception handler, so the block raises exactly when some removal
fails.  `files` is the glob result for the two artifact-name prefixes and
`removeFails f` says whether `os.remove(f)` raises. -/
def cleanupRaises (keep_dumps : Bool) (files : List Str) (removeFails : Str → Bool) : Bool :=
  !keep_dumps && files.any removeFails

/-- One pass of the worker loop body after the task `(rse, attemps)` was
dequeued and the guarded check finished with `success` (source lines 202-229):
the cleanup block runs first and, if it raises, the exception propagates out
of `check` before the retry decision is reached. -/
def checkIteration (success : Bool) (rse : Str) (attemps : Nat)
    (keep_dumps : Bool) (files : List Str) (removeFails : Str → Bool) : IterOutcome :=
  if cleanupRaises keep_dumps files removeFails then
    IterOutcome.crashed
  else
    IterOutcome.normal (retryDecision success rse attemps)

/-- The item put on the retry channel by one loop pass, if any. -/
def pushOf : IterOutcome → Option (Str × Nat)
  | IterOutcome.crashed => none
  | IterOutcome.normal p => p

/-- The environment one loop pass runs in: whether the guarded check
succeeds, the `keep_dumps` flag, the globbed cache artifacts and which
removals fail. -/
structure IterEnv where
  success : Bool
  keep_dumps : Bool
  files : List Str
  removeFails : Str → Bool

/-- If a loop pass pushes a retry item, the pushed budget is `attemps - 1`
and the dequeued budget was positive. -/
theorem checkIteration_push_lt {s : Bool} {rse : Str} {a : Nat} {kd : Bool}
    {files : List Str} {rf : Str → Bool} {p : Str × Nat}
    (h : checkIteration s rse a kd files rf = IterOutcome.normal (some p)) :
    p.2 = a - 1 ∧ 0 < a := by
  unfold checkIteration at h
  split at h
  · exact absurd h (by simp)
  · unfold retryDecision at h
    split at h
    · rename_i hc
      cases h
      exact ⟨rfl, hc.2⟩
    · exact absurd h (by simp)

/-- The successive attempt budgets a single task sees across the worker loop:
pass `idx` runs in environment `envs idx`; when it pushes `(rse, a - 1)` the
task is (per the spec's external feeder) dequeued again with that budget. -/
def taskRun (envs : Nat → IterEnv) (rse : Str) (idx : Nat) (a : Nat) : List Nat :=
  match h : checkIteration (envs idx).success rse a (envs idx).keep_dumps
      (envs idx).files (envs idx).removeFails with
  | IterOutcome.crashed => [a]
  | IterOutcome.normal none => [a]
  | IterOutcome.normal (some p) => a :: taskRun envs rse (idx + 1) p.2
termination_by a
decreasing_by
  have hp := checkIteration_push_lt h
  omega

/-- How `consistency` (source lines 43-68) ends: a collaborator exception
propagated unmodified (`error`), the idempotent skip (`return None`), or the
result path (`ok`). -/
inductive ConsResult
  | error
  | skipped
  | ok (path : Str)
deriving DecidableEq, Repr

/-- The external collaborators of one `consistency` call: whether
`srmdumps.download_rse_dump` succeeds and the dump date it returns (already
formatted `%Y%m%d`), whether the two `ReplicaFromHDFS.download` calls
succeed, and the lazy `Consistency.dump` sequence — `none` when its
iteration raises mid-write (in which case `temp_file` guarantees nothing
appears under the final name), `some lines` the csv lines it yields. -/
structure ConsEnv where
  dumpOk : Bool
  dumpDate : Str
  prevOk : Bool
  nextOk : Bool
  diffLines : Option (List Str)

/-- Observable effects of one `consistency` call: its outcome, the
filesystem afterwards, whether the catalog snapshots were requested and
whether the diff was requested. -/
structure ConsRun where
  result : ConsResult
  fs : FS
  snapshotsRequested : Bool
  diffRequested : Bool

/-- `os.path.flatten(results_dir, '{0}_{1}'.format(rse, date))` (source line 46). -/
def resultsPathFor (results_dir rse date : Str) : Str :=
  results_dir ++ ("/").toList ++ rse ++ ("_").toList ++ date

/-- `consistency(rse, delta, configuration, cache_dir, results_dir)`
(source lines 43-68): download the dump; if a plain or `.bz2` result
already exists at the canonical path, skip; otherwise download the two
bracketing snapshots, request the diff, and write one `LABEL,path` line per
record to the result path under `temp_file` (atomic: on failure the final
name does not appear). -/
def consistency (env : ConsEnv) (rse results_dir : Str) (fs : FS) : ConsRun :=
  if env.dumpOk = false then
    ⟨ConsResult.error, fs, false, false⟩
  else
    let results_path := resultsPathFor results_dir rse env.dumpDate
    if (fs (results_path ++ (".bz2").toList)).isSome || (fs results_path).isSome then
      ⟨ConsResult.skipped, fs, false, false⟩
    else if env.prevOk = false then
      ⟨ConsResult.error, fs, true, false⟩
    else if env.nextOk = false then
      ⟨ConsResult.error, fs, true, false⟩
    else
      match env.diffLines with
      | none => ⟨ConsResult.error, fs, true, true⟩
      | some lines =>
        ⟨ConsResult.ok results_path,
         updateFS fs results_path ((lines.map (fun l => l ++ ['\n'])).flatten),
         true, true⟩

/-- The chunks successively returned by `plain.read(chunk_size)` in
`bz2_compress_file` (source lines 108-112): `read(0)` returns the empty
string, so a zero chunk size reads nothing. -/
def bz2Chunks (n : Nat) (content : Str) : List Str :=
  if n = 0 ∨ content = [] then []
  else content.take n :: bz2Chunks n (content.drop n)
termination_by content.length
decreasing_by
  rename_i h
  push_neg at h
  have h1 : 0 < content.length := List.length_pos.mpr h.2
  simp only [List.length_drop]
  omega

/-- Observable effects of one `bz2_compress_file` call: `some destination`
on success, `none` when an exception propagated, plus the filesystem
afterwards.  The compressed artifact is modelled by the logical byte stream
fed to the (external, lossless) bz2 codec, so decompressing it is reading
that stream. -/
structure BZRun where
  result : Option Str
  fs : FS

/-- `bz2_compress_file(source, chunk_size)` (source lines 89-114): stream
the source in chunks into `<source>.bz2`, then `os.remove(source)`.
`failAt = some k` models an exception raised while writing chunk `k`
(0-based): the `with` block closes the partial destination, the exception
propagates, and `os.remove` is never reached. -/
def bz2_compress_file (source : Str) (chunk_size : Nat) (failAt : Option Nat) (fs : FS) : BZRun :=
  let destination := source ++ (".bz2").toList
  match fs source with
  | none => ⟨none, fs⟩
  | some content =>
    let chunks := bz2Chunks chunk_size content
    match failAt with
    | some k =>
      if k < chunks.length then
        ⟨none, updateFS fs destination ((chunks.take k).flatten)⟩
      else
        ⟨some destination, removeFS (updateFS fs destination chunks.flatten) source⟩
    | none =>
      ⟨some destination, removeFS (updateFS fs destination chunks.flatten) source⟩


/-- A string without the separator splits into itself alone. -/
theorem pySplit_no_sep (sep : Char) : ∀ s : Str, (sep ∈ s → False) → pySplit sep s = [s] := by
  intro s
  induction s with
  | nil => intro _; rfl
  | cons c cs ih =>
    intro h
    have hc : ¬ c = sep := fun he => h (he ▸ List.mem_cons_self c cs)
    have hcs : sep ∈ cs → False := fun hm => h (List.mem_cons_of_mem c hm)
    simp only [pySplit, if_neg hc, ih hcs]

/-- A successfully parsed result file contains only `DARK`/`LOST` lines,
each with a comma. -/
theorem parseResultLines_sound :
    ∀ {lines : List Str} {d : List DarkReplica}, parseResultLines lines = some d →
      ∀ l ∈ lines, ∃ lab rest, pySplitOnce ',' (pyRstrip l) = some (lab, rest)
        ∧ (lab = ("DARK").toList ∨ lab = ("LOST").toList) := by
  intro lines
  induction lines with
  | nil => intro d _ l hl; cases hl
  | cons x xs ih =>
    intro d h l hl
    simp only [parseResultLines] at h
    cases hsp : pySplitOnce ',' (pyRstrip x) with
    | none => rw [hsp] at h; cases h
    | some pr =>
      obtain ⟨lab, rest⟩ := pr
      rw [hsp] at h
      dsimp only at h
      by_cases hd : lab = ("DARK").toList
      · rw [if_pos hd] at h
        obtain ⟨ds, hds, _⟩ := Option.map_eq_some'.mp h
        cases hl with
        | head => exact ⟨lab, rest, hsp, Or.inl hd⟩
        | tail _ hm => exact ih hds l hm
      · rw [if_neg hd] at h
        by_cases hlo : lab = ("LOST").toList
        · rw [if_pos hlo] at h
          cases hl with
          | head => exact ⟨lab, rest, hsp, Or.inr hlo⟩
          | tail _ hm => exact ih h l hm
        · rw [if_neg hlo] at h; cases h

/-- Parsing `n` copies of one well-formed DARK line yields `n` copies of its
replica record. -/
theorem parseResultLines_replicate_dark {line p : Str}
    (h : pySplitOnce ',' (pyRstrip line) = some (("DARK").toList, p)) :
    ∀ n : Nat, parseResultLines (List.replicate n line)
      = some (List.replicate n ⟨p, (guess_replica_info p).1, (guess_replica_info p).2⟩) := by
  intro n
  induction n with
  | zero => rfl
  | succ k ih =>
    rw [List.replicate_succ]
    simp only [parseResultLines, h, if_pos rfl, ih, Option.map_some']
    rw [List.replicate_succ]
    simp

/-- `process_output` on an unparseable file: critical log, re-raise,
nothing submitted, no compression. -/
theorem process_output_parse_none {lines : List Str} {s c : Bool} {f : Nat} {θ : ℚ}
    (h : parseResultLines lines = none) :
    process_output lines s c f θ = ⟨POOutcome.parseError, [], true, false⟩ := by
  unfold process_output
  rw [h]

/-- `process_output` on a parseable file reduces to the sanity-guard
decision. -/
theorem process_output_parse_some {lines : List Str} {s c : Bool} {f : Nat} {θ : ℚ}
    {d : List DarkReplica} (h : parseResultLines lines = some d) :
    process_output lines s c f θ =
      if s = true ∧ (d.length : ℚ) > θ * (f : ℚ) then ⟨POOutcome.sanityError, [], false, false⟩
      else ⟨POOutcome.ok, [d], false, c⟩ := by
  unfold process_output
  rw [h]

/-- The flattened read chunks reassemble the file content whenever the chunk
size is positive. -/
theorem bz2Chunks_flatten (n : Nat) (hn : n ≠ 0) (content : Str) :
    (bz2Chunks n content).flatten = content := by
  have main : ∀ (L : Nat) (c : Str), c.length ≤ L → (bz2Chunks n c).flatten = c := by
    intro L
    induction L with
    | zero =>
      intro c hc
      have hcn : c = [] := List.eq_nil_of_length_eq_zero (Nat.le_zero.mp hc)
      subst hcn
      rw [bz2Chunks]
      simp
    | succ k ih =>
      intro c hc
      rw [bz2Chunks]
      by_cases hz : n = 0 ∨ c = []
      · rcases hz with hz | hz
        · exact absurd hz hn
        · subst hz; simp
      · rw [if_neg hz]
        push_neg at hz
        simp only [List.flatten_cons]
        rw [ih (c.drop n) ?hlen]
        · exact List.take_append_drop n c
        case hlen =>
          have hp : 0 < c.length := List.length_pos.mpr hz.2
          simp only [List.length_drop]
          omega
  exact main content.length content (le_refl _)

/-- `taskRun` on a pass whose cleanup crashes the loop: the task is gone. -/
theorem taskRun_of_crashed {envs : Nat → IterEnv} {rse : Str} {idx a : Nat}
    (h : checkIteration (envs idx).success rse a (envs idx).keep_dumps
      (envs idx).files (envs idx).removeFails = IterOutcome.crashed) :
    taskRun envs rse idx a = [a] := by
  rw [taskRun]
  split
  · rfl
  · rfl
  · rename_i p heq
    rw [h] at heq
    cases heq

/-- `taskRun` on a pass that pushes nothing: the task is dropped. -/
theorem taskRun_of_none {envs : Nat → IterEnv} {rse : Str} {idx a : Nat}
    (h : checkIteration (envs idx).success rse a (envs idx).keep_dumps
      (envs idx).files (envs idx).removeFails = IterOutcome.normal none) :
    taskRun envs rse idx a = [a] := by
  rw [taskRun]
  split
  · rfl
  · rfl
  · rename_i p heq
    rw [h] at heq
    cases heq

/-- `taskRun` on a pass that pushes a retry item: the task is re-attempted
with the pushed budget. -/
theorem taskRun_of_some {envs : Nat → IterEnv} {rse : Str} {idx a : Nat} {p : Str × Nat}
    (h : checkIteration (envs idx).success rse a (envs idx).keep_dumps
      (envs idx).files (envs idx).removeFails = IterOutcome.normal (some p)) :
    taskRun envs rse idx a = a :: taskRun envs rse (idx + 1) p.2 := by
  rw [taskRun]
  split
  · rename_i heq
    rw [h] at heq
    cases heq
  · rename_i heq
    rw [h] at heq
    cases heq
  · rename_i q heq
    rw [h] at heq
    cases heq
    rfl

/-- Whatever the per-pass environments, a task dequeued with budget `a` is
attempted at most `a + 1` times. -/
theorem taskRun_length (envs : Nat → IterEnv) (rse : Str) :
    ∀ a idx, (taskRun envs rse idx a).length ≤ a + 1 := by
  intro a
  induction a using Nat.strong_induction_on with
  | _ a ih =>
    intro idx
    cases h : checkIteration (envs idx).success rse a (envs idx).keep_dumps
        (envs idx).files (envs idx).removeFails with
    | crashed => rw [taskRun_of_crashed h]; simp
    | normal o =>
      cases o with
      | none => rw [taskRun_of_none h]; simp
      | some q =>
        rw [taskRun_of_some h]
        have hq := checkIteration_push_lt h
        have hlt : q.2 < a := by omega
        have hrec := ih q.2 hlt (idx + 1)
        simp only [List.length_cons]
        omega

/-- A `consistency` call that returned a result path wrote the file at the
canonical path and requested the diff. -/
theorem consistency_ok_spec {env : ConsEnv} {rse dir : Str} {fs : FS} {p : Str}
    (h : (consistency env rse dir fs).result = ConsResult.ok p) :
    ((consistency env rse dir fs).fs (resultsPathFor dir rse env.dumpDate)).isSome = true
      ∧ (consistency env rse dir fs).diffRequested = true := by
  unfold consistency at h ⊢
  by_cases h1 : env.dumpOk = false
  · rw [if_pos h1] at h
    exact absurd h (by simp)
  · rw [if_neg h1] at h ⊢
    dsimp only at h ⊢
    by_cases h2 : ((fs (resultsPathFor dir rse env.dumpDate ++ ((".bz2").toList))).isSome
        || (fs (resultsPathFor dir rse env.dumpDate)).isSome) = true
    · rw [if_pos h2] at h
      exact absurd h (by simp)
    · rw [if_neg h2] at h ⊢
      by_cases h3 : env.prevOk = false
      · rw [if_pos h3] at h
        exact absurd h (by simp)
      · rw [if_neg h3] at h ⊢
        by_cases h4 : env.nextOk = false
        · rw [if_pos h4] at h
          exact absurd h (by simp)
        · rw [if_neg h4] at h ⊢
          cases hdl : env.diffLines with
          | none =>
            rw [hdl] at h
            exact absurd h (by simp)
          | some lines =>
            refine ⟨?_, rfl⟩
            simp [updateFS]

/-- `consistency` skips — returning `None`, leaving the filesystem alone and
requesting neither snapshots nor diff — whenever a plain or compressed result
file already exists at the canonical path. -/
theorem consistency_skips {env : ConsEnv} {rse dir : Str} {fs : FS}
    (hdump : env.dumpOk = true)
    (hex : (fs (resultsPathFor dir rse env.dumpDate ++ ((".bz2").toList))).isSome = true
      ∨ (fs (resultsPathFor dir rse env.dumpDate)).isSome = true) :
    consistency env rse dir fs = ⟨ConsResult.skipped, fs, false, false⟩ := by
  unfold consistency
  rw [if_neg (by rw [hdump]; simp)]
  rw [if_pos (by rw [Bool.or_eq_true]; exact hex)]

/-- A path differs from its `.bz2`-suffixed companion. -/
theorem self_ne_append_bz2 (s : Str) : ¬ s = s ++ ((".bz2").toList) := by
  intro h
  have h2 := congrArg List.length h
  rw [List.length_append] at h2
  have h4 : ((".bz2").toList).length = 4 := rfl
  omega

/-- Claim C5: for every path `p`, `guess_replica_info` returns
`(undefined, p)` when `p` contains no `/` separator; scope `group.<x>`
(resp. `user.<x>`) with the last segment as name when `p` splits into at
least three segments whose first is `group` or `user`; and
`(first segment, last segment)` for every other multi-segment path. -/
theorem C5_guess_replica_info_cases :
    ∀ p : Str,
      (('/' ∈ p → False) → guess_replica_info p = (none, p))
      ∧ (3 ≤ (pySplit '/' p).length →
          ((pySplit '/' p).headD [] = ("group").toList ∨ (pySplit '/' p).headD [] = ("user").toList) →
          guess_replica_info p =
            (some ((pySplit '/' p).headD [] ++ '.' :: (pySplit '/' p).getD 1 []),
             (pySplit '/' p).getLastD []))
      ∧ (2 ≤ (pySplit '/' p).length →
          ¬ (3 ≤ (pySplit '/' p).length
              ∧ ((pySplit '/' p).headD [] = ("group").toList ∨ (pySplit '/' p).headD [] = ("user").toList)) →
          guess_replica_info p = (some ((pySplit '/' p).headD []), (pySplit '/' p).getLastD [])) := by
  intro p
  refine ⟨?_, ?_, ?_⟩
  · intro hns
    unfold guess_replica_info
    rw [pySplit_no_sep '/' p hns]
    simp
  · intro h3 hmem
    unfold guess_replica_info
    rw [if_neg (by omega), if_pos ⟨by omega, hmem⟩]
    cases hsp : pySplit '/' p with
    | nil => rw [hsp] at h3; simp at h3
    | cons a t =>
      cases t with
      | nil => rw [hsp] at h3; simp at h3
      | cons b t2 =>
        simp [List.intercalate, List.intersperse]
  · intro h2 hneg
    unfold guess_replica_info
    rw [if_neg (by omega)]
    rw [if_neg (by intro hc; exact hneg ⟨by omega, hc.2⟩)]

/-- Witness for C5 at the concrete paths `abc`, `group/x/y` and `a/b`. -/
theorem C5_guess_replica_info_cases_witness :
    (('/' ∈ (("abc").toList) → False)
      ∧ guess_replica_info (("abc").toList) = (none, ("abc").toList))
    ∧ (3 ≤ (pySplit '/' (("group/x/y").toList)).length
      ∧ guess_replica_info (("group/x/y").toList) = (some (("group.x").toList), ("y").toList))
    ∧ (2 ≤ (pySplit '/' (("a/b").toList)).length
      ∧ guess_replica_info (("a/b").toList) = (some (("a").toList), ("b").toList)) := by
  refine ⟨⟨by decide, ?_⟩, ⟨by decide, ?_⟩, ⟨by decide, ?_⟩⟩
  · exact (C5_guess_replica_info_cases (("abc").toList)).1 (by decide)
  · exact ((C5_guess_replica_info_cases (("group/x/y").toList)).2.1 (by decide) (by decide)).trans (by decide)
  · exact ((C5_guess_replica_info_cases (("a/b").toList)).2.2 (by decide) (by decide)).trans (by decide)

/-- Claim C1: with sanity checking enabled, `process_output` raises the
fatal assertion error iff the number of DARK records exceeds `threshold`
times the endpoint's total file count, and then nothing is submitted to the
quarantine store; concretely, with file count 1000 and threshold 0.2, a
file of 201 DARK entries raises and submits zero records while a file of
exactly 200 DARK entries passes and submits all 200. -/
theorem C1_sanity_guard :
    (∀ (lines : List Str) (compress : Bool) (files : Nat) (threshold : ℚ) (d : List DarkReplica),
      parseResultLines lines = some d →
        (((process_output lines true compress files threshold).outcome = POOutcome.sanityError)
            ↔ (d.length : ℚ) > threshold * (files : ℚ))
        ∧ ((d.length : ℚ) > threshold * (files : ℚ) →
            (process_output lines true compress files threshold).quarantined = [])
        ∧ (¬ ((d.length : ℚ) > threshold * (files : ℚ)) →
            (process_output lines true compress files threshold).quarantined = [d]))
    ∧ ((process_output (List.replicate 201 (("DARK,x").toList)) true true 1000 (0.2 : ℚ)).outcome
          = POOutcome.sanityError
        ∧ (process_output (List.replicate 201 (("DARK,x").toList)) true true 1000 (0.2 : ℚ)).quarantined = [])
    ∧ ((process_output (List.replicate 200 (("DARK,x").toList)) true true 1000 (0.2 : ℚ)).outcome
          = POOutcome.ok
        ∧ (process_output (List.replicate 200 (("DARK,x").toList)) true true 1000 (0.2 : ℚ)).quarantined
            = [List.replicate 200 ⟨("x").toList, none, ("x").toList⟩]) := by
  have general : ∀ (lines : List Str) (compress : Bool) (files : Nat) (threshold : ℚ)
      (d : List DarkReplica), parseResultLines lines = some d →
        (((process_output lines true compress files threshold).outcome = POOutcome.sanityError)
            ↔ (d.length : ℚ) > threshold * (files : ℚ))
        ∧ ((d.length : ℚ) > threshold * (files : ℚ) →
            (process_output lines true compress files threshold).quarantined = [])
        ∧ (¬ ((d.length : ℚ) > threshold * (files : ℚ)) →
            (process_output lines true compress files threshold).quarantined = [d]) := by
    intro lines compress files θ d h
    rw [process_output_parse_some h]
    by_cases hg : (d.length : ℚ) > θ * (files : ℚ)
    · rw [if_pos ⟨rfl, hg⟩]
      exact ⟨⟨fun _ => hg, fun _ => rfl⟩, fun _ => rfl, fun hn => absurd hg hn⟩
    · rw [if_neg (fun hc => hg hc.2)]
      exact ⟨⟨fun he => absurd he (by simp), fun hgg => absurd hgg hg⟩,
        fun hgg => absurd hgg hg, fun _ => rfl⟩
  have hline : pySplitOnce ',' (pyRstrip (("DARK,x").toList)) = some ((("DARK").toList), ("x").toList) := by
    decide
  have h201 := parseResultLines_replicate_dark hline 201
  have h200 := parseResultLines_replicate_dark hline 200
  refine ⟨general, ?_, ?_⟩
  · have hgt : ((List.replicate 201
        (⟨("x").toList, (guess_replica_info (("x").toList)).1, (guess_replica_info (("x").toList)).2⟩
          : DarkReplica)).length : ℚ) > (0.2 : ℚ) * ((1000 : Nat) : ℚ) := by
      rw [List.length_replicate]
      norm_num
    have hg := general (List.replicate 201 (("DARK,x").toList)) true 1000 (0.2 : ℚ) _ h201
    exact ⟨hg.1.mpr hgt, hg.2.1 hgt⟩
  · have hng : ¬ (((List.replicate 200
        (⟨("x").toList, (guess_replica_info (("x").toList)).1, (guess_replica_info (("x").toList)).2⟩
          : DarkReplica)).length : ℚ) > (0.2 : ℚ) * ((1000 : Nat) : ℚ)) := by
      rw [List.length_replicate]
      norm_num
    have hg := general (List.replicate 200 (("DARK,x").toList)) true 1000 (0.2 : ℚ) _ h200
    have hrec : (⟨("x").toList, (guess_replica_info (("x").toList)).1,
        (guess_replica_info (("x").toList)).2⟩ : DarkReplica)
        = ⟨("x").toList, none, ("x").toList⟩ := by decide
    have hq := hg.2.2 hng
    rw [hrec] at hq
    refine ⟨?_, hq⟩
    rw [process_output_parse_some h200, if_neg (fun hc => hng hc.2)]

/-- Witness for C1 at a one-line DARK file. -/
theorem C1_sanity_guard_witness :
    parseResultLines [("DARK,x").toList] = some [⟨("x").toList, none, ("x").toList⟩]
    ∧ (((process_output [("DARK,x").toList] true true 1000 (0.2 : ℚ)).outcome = POOutcome.sanityError)
        ↔ (((([⟨("x").toList, none, ("x").toList⟩] : List DarkReplica).length : ℚ))
            > (0.2 : ℚ) * ((1000 : Nat) : ℚ))) := by
  have hp : parseResultLines [("DARK,x").toList] = some [⟨("x").toList, none, ("x").toList⟩] := by
    decide
  exact ⟨hp, (C1_sanity_guard.1 [("DARK,x").toList] true 1000 (0.2 : ℚ) _ hp).1⟩

/-- Claim C6: a result file containing a line whose label (the text before
the first comma) is neither `DARK` nor `LOST` makes `process_output` fail
with the fatal parse error, logged at critical severity, and zero records
are submitted to the quarantine store. -/
theorem C6_unknown_label_fatal :
    ∀ (lines : List Str) (sanity compress : Bool) (files : Nat) (threshold : ℚ),
      (∃ l ∈ lines, ∃ lab rest, pySplitOnce ',' (pyRstrip l) = some (lab, rest)
          ∧ ¬ lab = ("DARK").toList ∧ ¬ lab = ("LOST").toList) →
      parseResultLines lines = none
      ∧ (process_output lines sanity compress files threshold).outcome = POOutcome.parseError
      ∧ (process_output lines sanity compress files threshold).quarantined = []
      ∧ (process_output lines sanity compress files threshold).criticalLogged = true := by
  intro lines sanity compress files θ hbad
  have hnone : parseResultLines lines = none := by
    cases hres : parseResultLines lines with
    | none => rfl
    | some d =>
      obtain ⟨l, hl, lab, rest, hsp, hnd, hnl⟩ := hbad
      obtain ⟨lab2, rest2, hsp2, hok⟩ := parseResultLines_sound hres l hl
      rw [hsp] at hsp2
      cases hsp2
      cases hok with
      | inl h => exact absurd h hnd
      | inr h => exact absurd h hnl
  rw [process_output_parse_none hnone]
  exact ⟨hnone, rfl, rfl, rfl⟩

/-- Witness for C6 at a one-line file with label `FOO`. -/
theorem C6_unknown_label_fatal_witness :
    (∃ l ∈ [("FOO,x").toList], ∃ lab rest, pySplitOnce ',' (pyRstrip l) = some (lab, rest)
        ∧ ¬ lab = ("DARK").toList ∧ ¬ lab = ("LOST").toList)
    ∧ (process_output [("FOO,x").toList] true true 1000 (0.2 : ℚ)).quarantined = []
    ∧ (process_output [("FOO,x").toList] true true 1000 (0.2 : ℚ)).outcome = POOutcome.parseError := by
  have hbad : ∃ l ∈ [("FOO,x").toList], ∃ lab rest, pySplitOnce ',' (pyRstrip l) = some (lab, rest)
      ∧ ¬ lab = ("DARK").toList ∧ ¬ lab = ("LOST").toList :=
    ⟨("FOO,x").toList, List.mem_cons_self _ _,
     ("FOO").toList, ("x").toList, by decide, by decide, by decide⟩
  have h := C6_unknown_label_fatal [("FOO,x").toList] true true 1000 (0.2 : ℚ) hbad
  exact ⟨hbad, h.2.2.1, h.2.1⟩

/-- Claim C10: a result file containing a line with no comma at all (for
example an empty line) makes the guarded parse block of `process_output`
raise (tuple unpacking of the one-element split fails); the error is logged
at critical severity and re-raised, and zero records are submitted —
missing-comma lines are never silently skipped. -/
theorem C10_missing_comma_fatal :
    ∀ (lines : List Str) (sanity compress : Bool) (files : Nat) (threshold : ℚ),
      (∃ l ∈ lines, pySplitOnce ',' (pyRstrip l) = none) →
      parseResultLines lines = none
      ∧ (process_output lines sanity compress files threshold).outcome = POOutcome.parseError
      ∧ (process_output lines sanity compress files threshold).quarantined = []
      ∧ (process_output lines sanity compress files threshold).criticalLogged = true := by
  intro lines sanity compress files θ hbad
  have hnone : parseResultLines lines = none := by
    cases hres : parseResultLines lines with
    | none => rfl
    | some d =>
      obtain ⟨l, hl, hsp⟩ := hbad
      obtain ⟨lab2, rest2, hsp2, _⟩ := parseResultLines_sound hres l hl
      rw [hsp] at hsp2
      cases hsp2
  rw [process_output_parse_none hnone]
  exact ⟨hnone, rfl, rfl, rfl⟩

/-- Witness for C10 at a file whose only line is empty. -/
theorem C10_missing_comma_fatal_witness :
    (∃ l ∈ [("").toList], pySplitOnce ',' (pyRstrip l) = none)
    ∧ (process_output [("").toList] true true 1000 (0.2 : ℚ)).quarantined = []
    ∧ (process_output [("").toList] true true 1000 (0.2 : ℚ)).outcome = POOutcome.parseError
    ∧ (process_output [("").toList] true true 1000 (0.2 : ℚ)).criticalLogged = true := by
  have hbad : ∃ l ∈ [("").toList], pySplitOnce ',' (pyRstrip l) = none :=
    ⟨("").toList, List.mem_cons_self _ _, by decide⟩
  have h := C10_missing_comma_fatal [("").toList] true true 1000 (0.2 : ℚ) hbad
  exact ⟨hbad, h.2.2.1, h.2.1, h.2.2.2⟩

/-- Counterexample to claim C2 as stated: a dequeued task whose check failed
with 2 attempts remaining, but where `keep_dumps` is unset and removing a
cache artifact raises, pushes nothing onto the retry channel — `os.remove`
has no handler, so the exception propagates before the push (the claim's
"pushed iff failed and attempts positive" predicts a push here). -/
theorem C2_retry_iff_cex :
    ¬ (((pushOf (checkIteration false (("E1").toList) 2 false [("cache").toList]
          (fun _ => true))).isSome = true) ↔ 0 < 2) := by
  intro hiff
  have h := hiff.mpr (by omega)
  simp [checkIteration, cleanupRaises, pushOf] at h

/-- Claim C2 (amended): provided the cache-cleanup block does not raise, a
retry item is pushed iff the check failed and `attempts_remaining` was
strictly positive, carrying `attempts_remaining - 1`; whatever the
environments, a task is attempted at most its initial budget plus one
times; and a task starting with budget 2 that fails every time (with clean
cleanup) is attempted exactly three times, with budgets 2, 1, 0, then
dropped. -/
theorem C2_retry_amended :
    (∀ (success : Bool) (rse : Str) (attemps : Nat) (kd : Bool)
        (files : List Str) (rf : Str → Bool),
      cleanupRaises kd files rf = false →
        ((pushOf (checkIteration success rse attemps kd files rf) = some (rse, attemps - 1))
            ↔ (success = false ∧ 0 < attemps))
        ∧ ((pushOf (checkIteration success rse attemps kd files rf) = none)
            ↔ ¬ (success = false ∧ 0 < attemps)))
    ∧ (∀ (envs : Nat → IterEnv) (rse : Str) (a idx : Nat),
        (taskRun envs rse idx a).length ≤ a + 1)
    ∧ taskRun (fun _ => ⟨false, true, [], fun _ => false⟩) (("E1").toList) 0 2 = [2, 1, 0] := by
  refine ⟨?_, ?_, ?_⟩
  · intro success rse attemps kd files rf hclean
    unfold checkIteration
    rw [hclean]
    simp only [Bool.false_eq_true, if_false, pushOf]
    unfold retryDecision
    constructor
    · constructor
      · intro h
        by_cases hc : success = false ∧ 0 < attemps
        · exact hc
        · rw [if_neg hc] at h
          cases h
      · intro hc
        rw [if_pos hc]
    · constructor
      · intro h hc
        rw [if_pos hc] at h
        cases h
      · intro hc
        rw [if_neg hc]
  · intro envs rse a idx
    exact taskRun_length envs rse a idx
  · have h2 : checkIteration ((fun (_ : Nat) => (⟨false, true, [], fun _ => false⟩ : IterEnv)) 0).success
        (("E1").toList) 2
        ((fun (_ : Nat) => (⟨false, true, [], fun _ => false⟩ : IterEnv)) 0).keep_dumps
        ((fun (_ : Nat) => (⟨false, true, [], fun _ => false⟩ : IterEnv)) 0).files
        ((fun (_ : Nat) => (⟨false, true, [], fun _ => false⟩ : IterEnv)) 0).removeFails
        = IterOutcome.normal (some ((("E1").toList), 1)) := rfl
    have h1 : checkIteration ((fun (_ : Nat) => (⟨false, true, [], fun _ => false⟩ : IterEnv)) 1).success
        (("E1").toList) 1
        ((fun (_ : Nat) => (⟨false, true, [], fun _ => false⟩ : IterEnv)) 1).keep_dumps
        ((fun (_ : Nat) => (⟨false, true, [], fun _ => false⟩ : IterEnv)) 1).files
        ((fun (_ : Nat) => (⟨false, true, [], fun _ => false⟩ : IterEnv)) 1).removeFails
        = IterOutcome.normal (some ((("E1").toList), 0)) := rfl
    have h0 : checkIteration ((fun (_ : Nat) => (⟨false, true, [], fun _ => false⟩ : IterEnv)) 2).success
        (("E1").toList) 0
        ((fun (_ : Nat) => (⟨false, true, [], fun _ => false⟩ : IterEnv)) 2).keep_dumps
        ((fun (_ : Nat) => (⟨false, true, [], fun _ => false⟩ : IterEnv)) 2).files
        ((fun (_ : Nat) => (⟨false, true, [], fun _ => false⟩ : IterEnv)) 2).removeFails
        = IterOutcome.normal none := rfl
    rw [taskRun_of_some h2, taskRun_of_some h1, taskRun_of_none h0]

/-- Witness for C2 (amended) at a failing task with budget 2 and clean
cleanup. -/
theorem C2_retry_amended_witness :
    cleanupRaises true [] (fun _ => false) = false
    ∧ pushOf (checkIteration false (("E1").toList) 2 true [] (fun _ => false))
        = some ((("E1").toList), 1) := by
  refine ⟨rfl, ?_⟩
  exact (C2_retry_amended.1 false (("E1").toList) 2 true [] (fun _ => false) rfl).1.mpr
    ⟨rfl, by omega⟩

/-- Counterexample to claim C3 as stated: with `keep_dumps` unset and a
cache-artifact removal failing, the worker loop pass crashes — the failure
is fatal, the retry-channel push decision (which would push `(E1, 0)` for
this failed task) is never performed, and the loop does not continue. -/
theorem C3_cleanup_cex :
    checkIteration false (("E1").toList) 1 false [("cache").toList] (fun _ => true)
      = IterOutcome.crashed
    ∧ ¬ (pushOf (checkIteration false (("E1").toList) 1 false [("cache").toList]
          (fun _ => true)) = some ((("E1").toList), 0)) := by
  constructor
  · rfl
  · intro h
    simp [checkIteration, cleanupRaises, pushOf] at h

/-- Claim C3 (amended): with `keep_dumps` unset, a failure to remove a
cache artifact propagates out of the worker loop — the pass crashes and no
retry decision happens; only when the cleanup raises nothing does the pass
reach the retry-channel push decision and continue. -/
theorem C3_cleanup_amended :
    (∀ (s : Bool) (rse : Str) (a : Nat) (files : List Str) (rf : Str → Bool),
      files.any rf = true →
        checkIteration s rse a false files rf = IterOutcome.crashed)
    ∧ (∀ (s : Bool) (rse : Str) (a : Nat) (kd : Bool) (files : List Str) (rf : Str → Bool),
        cleanupRaises kd files rf = false →
          checkIteration s rse a kd files rf = IterOutcome.normal (retryDecision s rse a)) := by
  constructor
  · intro s rse a files rf hfail
    unfold checkIteration cleanupRaises
    rw [hfail]
    simp
  · intro s rse a kd files rf hclean
    unfold checkIteration
    rw [hclean]
    simp

/-- Witness for C3 (amended): one failing removal crashes the pass; with
`keep_dumps` set the pass reaches the retry decision. -/
theorem C3_cleanup_amended_witness :
    ([("cache").toList].any (fun _ => true) = true
      ∧ checkIteration true (("E1").toList) 3 false [("cache").toList] (fun _ => true)
          = IterOutcome.crashed)
    ∧ (cleanupRaises true [] (fun _ => true) = false
      ∧ checkIteration true (("E1").toList) 3 true [] (fun _ => true)
          = IterOutcome.normal (retryDecision true (("E1").toList) 3)) := by
  constructor
  · exact ⟨rfl, C3_cleanup_amended.1 true (("E1").toList) 3 [("cache").toList] (fun _ => true) rfl⟩
  · exact ⟨rfl, C3_cleanup_amended.2 true (("E1").toList) 3 true [] (fun _ => true) rfl⟩

/-- Evaluation of the C4 end-to-end scenario: diff records
`DARK,/data/a.root` and `LOST,/data/b.root`, file count 100, default
threshold 0.2. -/
theorem c4_scenario_eval :
    process_output [("DARK,/data/a.root").toList, ("LOST,/data/b.root").toList]
        true true 100 (0.2 : ℚ)
      = ⟨POOutcome.ok, [[⟨("/data/a.root").toList, some [], ("a.root").toList⟩]], false, true⟩ := by
  have hp : parseResultLines [("DARK,/data/a.root").toList, ("LOST,/data/b.root").toList]
      = some [⟨("/data/a.root").toList, some [], ("a.root").toList⟩] := by decide
  rw [process_output_parse_some hp]
  rw [if_neg ?hng]
  case hng =>
    rintro ⟨_, hq⟩
    rw [List.length_singleton] at hq
    norm_num at hq

/-- Counterexample to claim C4 as stated: in the end-to-end scenario the one
submitted DARK record has scope `""` (the empty first `/`-segment of the
absolute path `/data/a.root`), not scope `"data"`, so the submitted batch is
not the record the claim names. -/
theorem C4_scenario_cex :
    ¬ (process_output [("DARK,/data/a.root").toList, ("LOST,/data/b.root").toList]
          true true 100 (0.2 : ℚ)).quarantined
        = [[⟨("/data/a.root").toList, some (("data").toList), ("a.root").toList⟩]] := by
  rw [c4_scenario_eval]
  decide

/-- Claim C4 (amended): in the end-to-end scenario (records
`DARK,/data/a.root` and `LOST,/data/b.root`, file count 100, default
threshold 0.2), output processing submits exactly one DARK record, equal to
`{path: /data/a.root, scope: "", name: a.root}` — the scope is the empty
first segment of the absolute path — and the result file is then
compressed. -/
theorem C4_scenario_amended :
    (process_output [("DARK,/data/a.root").toList, ("LOST,/data/b.root").toList]
        true true 100 (0.2 : ℚ)).quarantined
      = [[⟨("/data/a.root").toList, some [], ("a.root").toList⟩]]
    ∧ (process_output [("DARK,/data/a.root").toList, ("LOST,/data/b.root").toList]
        true true 100 (0.2 : ℚ)).outcome = POOutcome.ok
    ∧ (process_output [("DARK,/data/a.root").toList, ("LOST,/data/b.root").toList]
        true true 100 (0.2 : ℚ)).compressed = true := by
  rw [c4_scenario_eval]
  exact ⟨rfl, rfl, rfl⟩

/-- Claim C7: if a plain or compressed result file already exists at the
canonical path for `(endpoint, dump_date)`, the check pipeline returns the
skip outcome without requesting snapshots or diff and leaves the filesystem
alone; consequently, calling the pipeline twice for the same endpoint and
dump date performs the diff at most once (only the first call diffs) and
the second invocation returns the skip outcome. -/
theorem C7_idempotent_skip :
    (∀ (env : ConsEnv) (rse dir : Str) (fs : FS),
      env.dumpOk = true →
      ((fs (resultsPathFor dir rse env.dumpDate ++ ((".bz2").toList))).isSome = true
        ∨ (fs (resultsPathFor dir rse env.dumpDate)).isSome = true) →
      consistency env rse dir fs = ⟨ConsResult.skipped, fs, false, false⟩)
    ∧ (∀ (env1 env2 : ConsEnv) (rse dir : Str) (fs : FS) (p : Str),
        env1.dumpOk = true → env2.dumpOk = true → env2.dumpDate = env1.dumpDate →
        (consistency env1 rse dir fs).result = ConsResult.ok p →
          (consistency env2 rse dir ((consistency env1 rse dir fs).fs)).result = ConsResult.skipped
          ∧ (consistency env2 rse dir ((consistency env1 rse dir fs).fs)).diffRequested = false
          ∧ (consistency env2 rse dir ((consistency env1 rse dir fs).fs)).snapshotsRequested = false
          ∧ (consistency env1 rse dir fs).diffRequested = true) := by
  constructor
  · intro env rse dir fs hdump hex
    exact consistency_skips hdump hex
  · intro env1 env2 rse dir fs p h1 h2 hdate hok
    have hspec := consistency_ok_spec hok
    have hskip : consistency env2 rse dir ((consistency env1 rse dir fs).fs)
        = ⟨ConsResult.skipped, (consistency env1 rse dir fs).fs, false, false⟩ := by
      apply consistency_skips h2
      right
      rw [hdate]
      exact hspec.1
    rw [hskip]
    exact ⟨rfl, rfl, rfl, hspec.2⟩

/-- Witness for C7: a first call on an empty filesystem produces the result
file, and an immediate second call with the same dump date skips without
diffing. -/
theorem C7_idempotent_skip_witness :
    (consistency ⟨true, ("20240110").toList, true, true, some [("DARK,x").toList]⟩
        (("E1").toList) (("res").toList) (fun _ => none)).result
      = ConsResult.ok (resultsPathFor (("res").toList) (("E1").toList) (("20240110").toList))
    ∧ (consistency ⟨true, ("20240110").toList, true, true, some []⟩
          (("E1").toList) (("res").toList)
          ((consistency ⟨true, ("20240110").toList, true, true, some [("DARK,x").toList]⟩
            (("E1").toList) (("res").toList) (fun _ => none)).fs)).result
        = ConsResult.skipped
    ∧ (consistency ⟨true, ("20240110").toList, true, true, some []⟩
          (("E1").toList) (("res").toList)
          ((consistency ⟨true, ("20240110").toList, true, true, some [("DARK,x").toList]⟩
            (("E1").toList) (("res").toList) (fun _ => none)).fs)).diffRequested
        = false := by
  have hok : (consistency ⟨true, ("20240110").toList, true, true, some [("DARK,x").toList]⟩
      (("E1").toList) (("res").toList) (fun _ => none)).result
      = ConsResult.ok (resultsPathFor (("res").toList) (("E1").toList) (("20240110").toList)) := by
    rfl
  have h := C7_idempotent_skip.2
    (⟨true, ("20240110").toList, true, true, some [("DARK,x").toList]⟩ : ConsEnv)
    (⟨true, ("20240110").toList, true, true, some []⟩ : ConsEnv)
    (("E1").toList) (("res").toList) (fun _ => none)
    (resultsPathFor (("res").toList) (("E1").toList) (("20240110").toList))
    rfl rfl rfl hok
  exact ⟨hok, h.1, h.2.1⟩

/-- Claim C8: if `bz2_compress_file` raises before the compressed copy is
completely written (an exception while writing chunk `k` of the stream),
the uncompressed original still exists — the original is removed only after
the compressed artifact is fully written and closed. -/
theorem C8_failure_preserves_original :
    ∀ (source content : Str) (chunk_size k : Nat) (fs : FS),
      fs source = some content →
      k < (bz2Chunks chunk_size content).length →
      (bz2_compress_file source chunk_size (some k) fs).result = none
      ∧ (bz2_compress_file source chunk_size (some k) fs).fs source = some content := by
  intro source content chunk_size k fs hsrc hk
  unfold bz2_compress_file
  rw [hsrc]
  dsimp only
  rw [if_pos hk]
  refine ⟨rfl, ?_⟩
  dsimp only [updateFS]
  rw [if_neg (self_ne_append_bz2 source)]
  exact hsrc

/-- Witness for C8: a two-chunk file whose compression fails while writing
the first chunk keeps its original. -/
theorem C8_failure_preserves_original_witness :
    (fun q => if q = ("f").toList then some (("ab").toList) else none : FS) (("f").toList)
      = some (("ab").toList)
    ∧ 0 < (bz2Chunks 1 (("ab").toList)).length
    ∧ (bz2_compress_file (("f").toList) 1 (some 0)
        (fun q => if q = ("f").toList then some (("ab").toList) else none)).result = none
    ∧ (bz2_compress_file (("f").toList) 1 (some 0)
        (fun q => if q = ("f").toList then some (("ab").toList) else none)).fs (("f").toList)
        = some (("ab").toList) := by
  have hsrc : (fun q => if q = ("f").toList then some (("ab").toList) else none : FS) (("f").toList)
      = some (("ab").toList) := by simp
  have hk : 0 < (bz2Chunks 1 (("ab").toList)).length := by simp [bz2Chunks]
  have h := C8_failure_preserves_original (("f").toList) (("ab").toList) 1 0
    (fun q => if q = ("f").toList then some (("ab").toList) else none) hsrc hk
  exact ⟨hsrc, hk, h.1, h.2⟩

/-- Claim C9: compressing a file with `bz2_compress_file` (default chunk
size 65000) and decompressing the produced `.bz2` artifact reproduces the
original byte-for-byte content — the stream handed to the (lossless,
external) bz2 codec is exactly the original content — and after successful
compression the uncompressed original no longer exists. -/
theorem C9_roundtrip :
    ∀ (source content : Str) (fs : FS),
      fs source = some content →
      (bz2_compress_file source 65000 none fs).result = some (source ++ ((".bz2").toList))
      ∧ (bz2_compress_file source 65000 none fs).fs (source ++ ((".bz2").toList)) = some content
      ∧ (bz2_compress_file source 65000 none fs).fs source = none := by
  intro source content fs hsrc
  unfold bz2_compress_file
  rw [hsrc]
  dsimp only [removeFS, updateFS]
  refine ⟨rfl, ?_, ?_⟩
  · rw [if_neg (fun h => self_ne_append_bz2 source h.symm), if_pos rfl]
    rw [bz2Chunks_flatten 65000 (by omega) content]
  · rw [if_pos rfl]

/-- Witness for C9: a concrete two-byte file round-trips and its original
is gone. -/
theorem C9_roundtrip_witness :
    (fun q => if q = ("r").toList then some (("hi").toList) else none : FS) (("r").toList)
      = some (("hi").toList)
    ∧ (bz2_compress_file (("r").toList) 65000 none
        (fun q => if q = ("r").toList then some (("hi").toList) else none)).result
        = some ((("r").toList) ++ ((".bz2").toList))
    ∧ (bz2_compress_file (("r").toList) 65000 none
        (fun q => if q = ("r").toList then some (("hi").toList) else none)).fs
        ((("r").toList) ++ ((".bz2").toList)) = some (("hi").toList)
    ∧ (bz2_compress_file (("r").toList) 65000 none
        (fun q => if q = ("r").toList then some (("hi").toList) else none)).fs (("r").toList)
        = none := by
  have hsrc : (fun q => if q = ("r").toList then some (("hi").toList) else none : FS) (("r").toList)
      = some (("hi").toList) := by simp
  have h := C9_roundtrip (("r").toList) (("hi").toList)
    (fun q => if q = ("r").toList then some (("hi").toList) else none) hsrc
  exact ⟨hsrc, h.1, h.2.1, h.2.2⟩
